/-
  Verification of CopyCat (src/main.pyw): the single-instance file-lock guard,
  the clipboard text typer, the hotkey chord dispatch, and the main entrypoint.

  The Python source is shallowly embedded: each function becomes a total Lean
  function over an explicit environment describing the outcomes of the OS calls
  it makes (clipboard read, keystroke emission, file open/lock/close/remove),
  and exceptions become explicit `Option PyExn` / `Except` values threaded
  through the same try/except structure as the source.
-/
import Mathlib

namespace CopyCat

/-! ## Python exception classes relevant to main.pyw

`osError` stands for `IOError`/`OSError` (aliases in Python 3), the class
raised by failing file opens, lock calls, closes and removals.
`valueError` is what `file.fileno()` (and hence `fcntl.flock(file, ..)`)
raises on an already-closed file object.  `failSafe` and `keyboardInterrupt`
are the two classes named in `type_clipboard_text`'s first except clause;
`generic msg` is any other `Exception`. -/

inductive PyExn : Type
  | osError : PyExn
  | valueError : PyExn
  | failSafe : PyExn
  | keyboardInterrupt : PyExn
  | generic : String → PyExn
deriving DecidableEq, Repr

/-! ## Clipboard Text Typer (`type_clipboard_text`, main.pyw lines 123-146)

Keystroke side effects are recorded as a trace of `Emit` events:
`Emit.write line` is one `pyautogui.write(line, interval=TYPING_INTERVAL)`
call (one character-emission batch), `Emit.shiftEnter` is one
`pyautogui.hotkey('shift', 'enter')` call. -/

inductive Emit : Type
  | write : List Char → Emit
  | shiftEnter : Emit
deriving DecidableEq, Repr

/-- `text.split('\n')` of Python on a character list: split on every
line-feed, keeping empty parts; the empty text yields `[[]]`. -/
def splitNl : List Char → List (List Char)
  | [] => [[]]
  | c :: rest =>
    match splitNl rest with
    | [] => [[]]
    | l :: ls => if c = '\n' then [] :: l :: ls else (c :: l) :: ls

/-- Environment for one invocation of `type_clipboard_text`:
the outcome of `pyperclip.paste()` (`Except` for a raising read; `none`
models `paste()` returning `None`, `some t` a string `t`), and an oracle
giving, for each successive `pyautogui` call (counted from 0 across both
`write` and `hotkey` calls), the exception it raises, if any. -/
structure TyperEnv : Type where
  paste : Except PyExn (Option (List Char))
  emitErr : Nat → Option PyExn

/-- The typing loop of main.pyw lines 134-138: `for i, line in
enumerate(lines): pyautogui.write(line, ...); if i < len(lines) - 1:
pyautogui.hotkey('shift', 'enter')`.  `k` counts how many `pyautogui`
calls happened before this iteration; `last` is true when the remaining
list is the tail of the final line (i.e. no more earlier lines exist).
Returns the emitted trace and the exception that escaped the loop, if
any. -/
def typeLoop (env : TyperEnv) (k : Nat) : List (List Char) → List Emit × Option PyExn
  | [] => ([], none)
  | line :: rest =>
    match env.emitErr k with
    | some e => ([], some e)
    | none =>
      if rest.isEmpty then
        ([Emit.write line], none)
      else
        match env.emitErr (k + 1) with
        | some e => ([Emit.write line], some e)
        | none =>
          (Emit.write line :: Emit.shiftEnter :: (typeLoop env (k + 2) rest).1,
           (typeLoop env (k + 2) rest).2)

/-- The body of the `try:` block in `type_clipboard_text` (lines 125-140):
sleep, read clipboard, early-return on falsy text, split, type each line.
Returns the emitted trace, the log lines printed, and the exception that
escaped the body, if any. -/
def typerBody (env : TyperEnv) : List Emit × List String × Option PyExn :=
  match env.paste with
  | Except.error e => ([], [], some e)
  | Except.ok t =>
    -- `if not text:` — true for None and for the empty string
    if t = none ∨ t = some [] then
      ([], ["Clipboard is empty"], none)
    else
      match t with
      | none => ([], ["Clipboard is empty"], none)
      | some text =>
        match (typeLoop env 0 (splitNl text)).2 with
        | some e =>
          ((typeLoop env 0 (splitNl text)).1, ["CopyCat typing clipboard..."], some e)
        | none =>
          ((typeLoop env 0 (splitNl text)).1,
           ["CopyCat typing clipboard...",
            "Clipboard contents typed successfully"], none)

/-- Message printed by the first except clause (FailSafeException,
KeyboardInterrupt) or the second (Exception). -/
def catchMsg : PyExn → String
  | PyExn.failSafe => "Typing interrupted"
  | PyExn.keyboardInterrupt => "Typing interrupted"
  | _ => "Error typing clipboard"

/-- `type_clipboard_text` (lines 123-146).  The first result component is
what the call observably did (keystroke trace and log lines); the second
is the exception propagating out of the call, if any.  The two except
clauses catch `FailSafeException`, `KeyboardInterrupt` and every other
`Exception`, log a description, and return normally. -/
def type_clipboard_text (env : TyperEnv) : (List Emit × List String) × Option PyExn :=
  match (typerBody env).2.2 with
  | none => (((typerBody env).1, (typerBody env).2.1), none)
  | some e =>
    match e with
    | PyExn.failSafe =>
      (((typerBody env).1, (typerBody env).2.1 ++ [catchMsg e]), none)
    | PyExn.keyboardInterrupt =>
      (((typerBody env).1, (typerBody env).2.1 ++ [catchMsg e]), none)
    | PyExn.osError =>
      (((typerBody env).1, (typerBody env).2.1 ++ [catchMsg e]), none)
    | PyExn.valueError =>
      (((typerBody env).1, (typerBody env).2.1 ++ [catchMsg e]), none)
    | PyExn.generic _ =>
      (((typerBody env).1, (typerBody env).2.1 ++ [catchMsg e]), none)

/-- A `TyperEnv` in which every `pyautogui` call succeeds. -/
def noEmitErr (p : Except PyExn (Option (List Char))) : TyperEnv :=
  ⟨p, fun _ => none⟩

/-- The line-feed characters in a text (how many `'\n'` it contains). -/
def countNl : List Char → Nat
  | [] => 0
  | c :: rest => (if c = '\n' then 1 else 0) + countNl rest

/-- Number of shift+enter combinations in a keystroke trace. -/
def numShiftEnters : List Emit → Nat
  | [] => 0
  | Emit.shiftEnter :: tr => numShiftEnters tr + 1
  | Emit.write _ :: tr => numShiftEnters tr

/-- The character-emission batches of a keystroke trace, in order. -/
def writeBatches : List Emit → List (List Char)
  | [] => []
  | Emit.write l :: tr => l :: writeBatches tr
  | Emit.shiftEnter :: tr => writeBatches tr

/-- The keystroke trace of one `type_clipboard_text` call when the
clipboard read yields `text` and every `pyautogui` call succeeds. -/
def noFailTrace (text : List Char) : List Emit :=
  ((type_clipboard_text (noEmitErr (Except.ok (some text)))).1).1

/-! ## Single Instance Check (`ensure_single_instance`, main.pyw lines 45-88)

The OS state relevant to the guard is who currently holds the advisory
lock on `<tempdir>/copycat.lock`: `none` when free, `some pid` when the
process `pid` holds it (for both `fcntl.flock LOCK_EX|LOCK_NB` and
`msvcrt.locking LK_NBLCK`, a non-blocking attempt succeeds iff the lock
is free, and the OS releases the lock when the holding file object is
closed). -/

inductive Platform : Type
  | win32 : Platform
  | posix : Platform
deriving DecidableEq, Repr

/-- A Python file object for the lock file: whether it is still open, and
whether the OS advisory lock is currently held through it. -/
structure Handle : Type where
  isOpen : Bool
  holdsLock : Bool
deriving DecidableEq, Repr

/-- The module-level mutable state of main.pyw that the guard touches:
`LOCK_FILE_HANDLE` and whether `atexit.register(release_lock)` ran. -/
structure ProcState : Type where
  lockFileHandle : Option Handle
  atexitRegistered : Bool
deriving DecidableEq, Repr

/-- State at interpreter start: `LOCK_FILE_HANDLE = None`, nothing
registered. -/
def procInit : ProcState := ⟨none, false⟩

/-- Environment of one `ensure_single_instance` call: the host platform,
whether the platform locking module (`msvcrt` / `fcntl`) is importable,
and whether `open(LOCK_FILE, 'w')` succeeds (raising `IOError`/`OSError`
otherwise). -/
structure LockEnv : Type where
  platform : Platform
  importOk : Bool
  openOk : Bool
deriving DecidableEq, Repr

/-- Observable outcome of one `ensure_single_instance` call: the returned
boolean, the exception propagating out of the call (if any), the advisory
lock holder afterwards, and the process globals afterwards. -/
structure GuardResult : Type where
  returns : Bool
  raised : Option PyExn
  os : Option Nat
  proc : ProcState
deriving DecidableEq, Repr

/-- Closing a file object: the OS releases any advisory lock held through
it, and the object becomes closed. -/
def closeHandle (os : Option Nat) (h : Handle) : Option Nat × Handle :=
  (if h.holdsLock then none else os, ⟨false, false⟩)

/-- Common body of the two platform branches of `ensure_single_instance`
(lines 58-68 for win32, lines 74-84 for unix); they differ only in the
locking primitive (`msvcrt.locking(.., LK_NBLCK, 1)` vs
`fcntl.flock(.., LOCK_EX | LOCK_NB)`), whose modeled non-blocking
semantics coincide.  Both branches run inside
`with open(LOCK_FILE, 'w', ..) as lock_file:` and return from within the
with-block, so the with-exit closes the lock file on the way out. -/
def lockBranch (pid : Nat) (env : LockEnv) (os : Option Nat) (g : ProcState) : GuardResult :=
  if env.openOk = false then
    -- `open` raised: caught by `except (IOError, OSError): return False`;
    -- the assignment `LOCK_FILE_HANDLE = lock_file` never ran
    ⟨false, none, os, g⟩
  else
    -- the file is open, `LOCK_FILE_HANDLE = lock_file`
    match os with
    | none =>
      -- non-blocking exclusive lock obtained; `atexit.register(release_lock)`;
      -- `return True` leaves the with-block, which closes the file and
      -- thereby makes the OS release the advisory lock just acquired
      let (os2, h2) := closeHandle (some pid) ⟨true, true⟩
      ⟨true, none, os2, ⟨some h2, true⟩⟩
    | some q =>
      -- lock held elsewhere: the locking call raises IOError, caught by
      -- `except IOError: return False`; leaving the with-block closes the file
      let (os2, h2) := closeHandle (some q) ⟨true, false⟩
      ⟨false, none, os2, ⟨some h2, g.atexitRegistered⟩⟩

/-- `ensure_single_instance` (lines 45-88), run by process `pid` against
advisory-lock state `os` and process globals `g`. -/
def ensure_single_instance (pid : Nat) (env : LockEnv) (os : Option Nat) (g : ProcState) :
    GuardResult :=
  match env.platform with
  | Platform.win32 =>
    -- `import msvcrt` may raise ImportError: caught, `return False`
    if env.importOk = false then ⟨false, none, os, g⟩
    else lockBranch pid env os g
  | Platform.posix =>
    -- `import fcntl` may raise ImportError: caught, `return False`
    if env.importOk = false then ⟨false, none, os, g⟩
    else lockBranch pid env os g

/-! ## Lock release (`release_lock`, main.pyw lines 91-119) -/

/-- Environment of one `release_lock` call: platform, whether the locking
module imports, and whether the unlock call, the `close()` call, and the
`os.remove(LOCK_FILE)` call raise `IOError`/`OSError` when actually
attempted on an open handle / existing file. -/
structure RelEnv : Type where
  platform : Platform
  importOk : Bool
  unlockErr : Bool
  closeErr : Bool
  removeErr : Bool
deriving DecidableEq, Repr

/-- Observable outcome of one `release_lock` call. -/
structure RelResult : Type where
  raised : Option PyExn
  os : Option Nat
  proc : ProcState
deriving DecidableEq, Repr

/-- The platform unlock block (lines 94-111): `import` guarded by
`except ImportError: pass`, the unlock call guarded by
`except (IOError, OSError): pass`.  On a closed file object,
`LOCK_FILE_HANDLE.fileno()` (win32) or `fcntl.flock(LOCK_FILE_HANDLE, ..)`
(unix) raises `ValueError`, which neither clause catches; the first
component is the exception escaping the block. -/
def unlockStep (env : RelEnv) (os : Option Nat) (h : Handle) :
    Option PyExn × Option Nat × Handle :=
  if env.importOk = false then (none, os, h)
  else if h.isOpen = false then (some PyExn.valueError, os, h)
  else if env.unlockErr then (none, os, h)
  else (none, if h.holdsLock then none else os, ⟨true, false⟩)

/-- Lines 113-117: `LOCK_FILE_HANDLE.close()` (a no-op on an already
closed file; on an open one it may raise `OSError`, which escapes toward
the outer handler and skips the removal), then `os.remove(LOCK_FILE)`
guarded by `except (IOError, OSError): pass`. -/
def closeRemoveStep (env : RelEnv) (os : Option Nat) (h : Handle) :
    Option PyExn × Option Nat × Handle :=
  if h.isOpen && env.closeErr then
    (some PyExn.osError, os, h)
  else
    let (os2, h2) := if h.isOpen then closeHandle os h else (os, h)
    (none, os2, h2)

/-- `release_lock` (lines 91-119).  `if LOCK_FILE_HANDLE:` is false only
for `None` (a file object is truthy whether open or closed); the body is
one `try` whose `except (IOError, OSError): pass` swallows exactly the
`OSError`-class exceptions reaching it — anything else propagates out. -/
def release_lock (env : RelEnv) (os : Option Nat) (g : ProcState) : RelResult :=
  match g.lockFileHandle with
  | none => ⟨none, os, g⟩
  | some h =>
    match unlockStep env os h with
    | (some e, os1, h1) =>
      if e = PyExn.osError then ⟨none, os1, ⟨some h1, g.atexitRegistered⟩⟩
      else ⟨some e, os1, ⟨some h1, g.atexitRegistered⟩⟩
    | (none, os1, h1) =>
      match closeRemoveStep env os1 h1 with
      | (some e, os2, h2) =>
        if e = PyExn.osError then ⟨none, os2, ⟨some h2, g.atexitRegistered⟩⟩
        else ⟨some e, os2, ⟨some h2, g.atexitRegistered⟩⟩
      | (none, os2, h2) => ⟨none, os2, ⟨some h2, g.atexitRegistered⟩⟩

/-! ## Main entrypoint (main.pyw lines 220-227) -/

/-- The externally visible actions of the `__main__` block, in program
order. -/
inductive MainAction : Type
  | printMsg : String → MainAction
  | startListenerThread : MainAction
  | runTray : MainAction
  | exitWith : Nat → MainAction
deriving DecidableEq, Repr

/-- The `__main__` block: call `ensure_single_instance` on fresh globals;
on `False`, print and `sys.exit(0)`; otherwise print, start the listener
thread, and run the tray. -/
def copycatMain (pid : Nat) (env : LockEnv) (os : Option Nat) : List MainAction :=
  if (ensure_single_instance pid env os procInit).returns = false then
    [MainAction.printMsg "CopyCat is already running! Exiting this instance.",
     MainAction.exitWith 0]
  else
    [MainAction.printMsg "CopyCat is running in the tray.",
     MainAction.startListenerThread,
     MainAction.runTray]

/-! ## Hotkey chord dispatch (`start_hotkey_listener`, main.pyw lines 150-166)

`start_hotkey_listener` parses `HOTKEY` into a set of key identifiers and
feeds every canonicalized press/release event to a `pynput`
`keyboard.HotKey`.  Modelled from the spec: the `HotKey` state machine
itself lives in the external pynput library, not in this repository; §4.3
of the specification gives its contract — per-key `released → pressed` on
a raw press of a chord member and back on a raw release, with the
callback firing on the transition of the global state into "complete"
(all chord members pressed), never while already complete.  Keys are
already canonicalized; a key identifier is a `Nat`. -/

inductive KEvent : Type
  | press : Nat → KEvent
  | release : Nat → KEvent
deriving DecidableEq, Repr

/-- One canonicalized event against the chord state `s` (the set of chord
members currently pressed): a press of a chord member not already pressed
records it and fires the callback exactly when this completes the chord;
a release removes the key from the state and never fires. -/
def hotKeyStep (chord : Finset Nat) (s : Finset Nat) : KEvent → Finset Nat × Bool
  | KEvent.press k =>
    if k ∈ chord ∧ k ∉ s then
      (insert k s, decide (insert k s = chord))
    else (s, false)
  | KEvent.release k => (s.erase k, false)

/-- Run of the listener over an event sequence, recording for each event
the state before it, the state after it, and whether the activation
callback fired on it. -/
def hotKeyTrace (chord : Finset Nat) (s : Finset Nat) :
    List KEvent → List (Finset Nat × Finset Nat × Bool)
  | [] => []
  | e :: es =>
    (s, (hotKeyStep chord s e).1, (hotKeyStep chord s e).2) ::
      hotKeyTrace chord (hotKeyStep chord s e).1 es

/-! ## Supporting lemmas -/

theorem splitNl_ne_nil (t : List Char) : splitNl t ≠ [] := by
  induction t with
  | nil => simp [splitNl]
  | cons c rest ih =>
    rw [splitNl]
    cases hr : splitNl rest with
    | nil => exact absurd hr ih
    | cons l ls => by_cases hc : c = '\n' <;> simp [hc]

theorem splitNl_length (t : List Char) : (splitNl t).length = countNl t + 1 := by
  induction t with
  | nil => simp [splitNl, countNl]
  | cons c rest ih =>
    rw [splitNl, countNl]
    cases hr : splitNl rest with
    | nil => exact absurd hr (splitNl_ne_nil rest)
    | cons l ls =>
      rw [hr] at ih
      simp only [List.length_cons] at ih
      by_cases hc : c = '\n' <;> simp [hc, List.length_cons] <;> omega

/-- Behavior of the typing loop when no `pyautogui` call fails: it raises
nothing, writes exactly the given lines in order, emits one shift+enter
between consecutive lines, and ends on the write of the last line. -/
theorem typeLoop_noErr (p : Except PyExn (Option (List Char))) :
    ∀ (ls : List (List Char)) (k : Nat), ls ≠ [] →
      (typeLoop (noEmitErr p) k ls).2 = none ∧
      writeBatches (typeLoop (noEmitErr p) k ls).1 = ls ∧
      numShiftEnters (typeLoop (noEmitErr p) k ls).1 = ls.length - 1 ∧
      (typeLoop (noEmitErr p) k ls).1.getLast? = ls.getLast?.map Emit.write := by
  intro ls
  induction ls with
  | nil => intro k h; exact absurd rfl h
  | cons line rest ih =>
    intro k _
    cases rest with
    | nil =>
      simp [typeLoop, noEmitErr, writeBatches, numShiftEnters]
    | cons l2 rest2 =>
      obtain ⟨h1, h2, h3, h4⟩ := ih (k + 2) (by simp)
      have hunf : typeLoop (noEmitErr p) k (line :: l2 :: rest2)
          = (Emit.write line :: Emit.shiftEnter ::
               (typeLoop (noEmitErr p) (k + 2) (l2 :: rest2)).1,
             (typeLoop (noEmitErr p) (k + 2) (l2 :: rest2)).2) := by
        rw [typeLoop]
        simp [noEmitErr]
      refine ⟨?_, ?_, ?_, ?_⟩
      · rw [hunf]
        exact h1
      · rw [hunf]
        simp only [writeBatches]
        rw [h2]
      · rw [hunf]
        simp only [numShiftEnters, h3]
        simp [Nat.succ_sub_one]
      · rw [hunf]
        have htr : (typeLoop (noEmitErr p) (k + 2) (l2 :: rest2)).1 ≠ [] := by
          intro hnil
          rw [hnil] at h2
          simp [writeBatches] at h2
        cases htr2 : (typeLoop (noEmitErr p) (k + 2) (l2 :: rest2)).1 with
        | nil => exact absurd htr2 htr
        | cons a tr2 =>
          rw [htr2] at h4
          simp only [htr2, List.getLast?_cons_cons]
          exact h4

theorem noEmitErr_paste (p : Except PyExn (Option (List Char))) :
    (noEmitErr p).paste = p := rfl

/-! ## Claim theorems: the Clipboard Text Typer -/

/-- C2, amended to non-empty clipboard text: for every non-empty clipboard
text containing exactly k line-feed characters, `type_clipboard_text`
emits exactly k shift+enter combinations and k+1 character-emission
batches — one `pyautogui.write` per line, in the order the lines occur in
the text — and the final emitted event is not a shift+enter. -/
theorem type_clipboard_text_segmentation (text : List Char) (hne : text ≠ []) :
    numShiftEnters (noFailTrace text) = countNl text ∧
    (writeBatches (noFailTrace text)).length = countNl text + 1 ∧
    writeBatches (noFailTrace text) = splitNl text ∧
    (noFailTrace text).getLast? ≠ some Emit.shiftEnter := by
  obtain ⟨h1, h2, h3, h4⟩ :=
    typeLoop_noErr (Except.ok (some text)) (splitNl text) 0 (splitNl_ne_nil text)
  have hbody : typerBody (noEmitErr (Except.ok (some text)))
      = ((typeLoop (noEmitErr (Except.ok (some text))) 0 (splitNl text)).1,
         ["CopyCat typing clipboard...",
          "Clipboard contents typed successfully"], none) := by
    simp [typerBody, noEmitErr_paste, hne, h1]
  have htr : noFailTrace text
      = (typeLoop (noEmitErr (Except.ok (some text))) 0 (splitNl text)).1 := by
    simp [noFailTrace, type_clipboard_text, hbody]
  refine ⟨?_, ?_, ?_, ?_⟩
  · rw [htr, h3, splitNl_length]
    omega
  · rw [htr, h2, splitNl_length]
  · rw [htr]
    exact h2
  · rw [htr, h4]
    cases (splitNl text).getLast? <;> simp

theorem type_clipboard_text_segmentation_witness :
    numShiftEnters (noFailTrace ['a', '\n', 'b']) = countNl ['a', '\n', 'b'] ∧
    (writeBatches (noFailTrace ['a', '\n', 'b'])).length = countNl ['a', '\n', 'b'] + 1 ∧
    writeBatches (noFailTrace ['a', '\n', 'b']) = splitNl ['a', '\n', 'b'] ∧
    (noFailTrace ['a', '\n', 'b']).getLast? ≠ some Emit.shiftEnter :=
  type_clipboard_text_segmentation ['a', '\n', 'b'] (by decide)

/-- C2, counterexample to the claim as stated: the empty clipboard text
contains exactly 0 line-feed characters but the typer emits no
character-emission batch for it (the early `if not text: return` fires),
not 0 + 1 = 1 batches. -/
theorem type_clipboard_text_segmentation_cex :
    noFailTrace [] = [] ∧
    ¬ ((writeBatches (noFailTrace [])).length = countNl [] + 1) := by
  constructor
  · rfl
  · decide

/-- C7: whenever the clipboard read yields an empty or unavailable
(`None`) text, `type_clipboard_text` logs "Clipboard is empty" and
returns having emitted zero character keystrokes and zero shift+enter
combinations, raising nothing. -/
theorem type_clipboard_text_empty_noop (env : TyperEnv)
    (h : env.paste = Except.ok none ∨ env.paste = Except.ok (some [])) :
    ((type_clipboard_text env).1).1 = [] ∧
    numShiftEnters ((type_clipboard_text env).1).1 = 0 ∧
    writeBatches ((type_clipboard_text env).1).1 = [] ∧
    ((type_clipboard_text env).1).2 = ["Clipboard is empty"] ∧
    (type_clipboard_text env).2 = none := by
  rcases h with h | h <;>
    simp [type_clipboard_text, typerBody, h, numShiftEnters, writeBatches]

theorem type_clipboard_text_empty_noop_witness :
    ((type_clipboard_text (noEmitErr (Except.ok none))).1).1 = [] ∧
    numShiftEnters ((type_clipboard_text (noEmitErr (Except.ok none))).1).1 = 0 ∧
    writeBatches ((type_clipboard_text (noEmitErr (Except.ok none))).1).1 = [] ∧
    ((type_clipboard_text (noEmitErr (Except.ok none))).1).2 = ["Clipboard is empty"] ∧
    (type_clipboard_text (noEmitErr (Except.ok none))).2 = none :=
  type_clipboard_text_empty_noop (noEmitErr (Except.ok none)) (Or.inl rfl)

/-- C10: a clipboard read yielding `None` takes the same early-return
branch as the empty string — the whole observable outcome of
`type_clipboard_text` is identical, nothing is emitted, and no exception
propagates, so the `text.split('\n')` call is never reached for a `None`
clipboard value. -/
theorem none_clipboard_same_branch (f : Nat → Option PyExn) :
    type_clipboard_text ⟨Except.ok none, f⟩
      = type_clipboard_text ⟨Except.ok (some []), f⟩ ∧
    ((type_clipboard_text ⟨Except.ok none, f⟩).1).1 = [] ∧
    ((type_clipboard_text ⟨Except.ok none, f⟩).1).2 = ["Clipboard is empty"] ∧
    (type_clipboard_text ⟨Except.ok none, f⟩).2 = none := by
  simp [type_clipboard_text, typerBody]

/-- C5: every exception raised inside the `try` body of
`type_clipboard_text` — clipboard read failure, keystroke-emission
failure, `pyautogui.FailSafeException`, `KeyboardInterrupt` — is caught:
the call propagates nothing, and when the body raised `e` the log ends
with the descriptive message of the except clause that caught `e`. -/
theorem type_clipboard_text_never_raises (env : TyperEnv) :
    (type_clipboard_text env).2 = none ∧
    ∀ e, (typerBody env).2.2 = some e →
      ((type_clipboard_text env).1).2 = (typerBody env).2.1 ++ [catchMsg e] := by
  constructor
  · cases hb : (typerBody env).2.2 with
    | none => simp [type_clipboard_text, hb]
    | some e => cases e <;> simp [type_clipboard_text, hb]
  · intro e he
    cases e <;> simp [type_clipboard_text, he]

theorem type_clipboard_text_never_raises_witness :
    (type_clipboard_text (noEmitErr (Except.error PyExn.failSafe))).2 = none ∧
    ((type_clipboard_text (noEmitErr (Except.error PyExn.failSafe))).1).2 =
      (typerBody (noEmitErr (Except.error PyExn.failSafe))).2.1
        ++ [catchMsg PyExn.failSafe] :=
  ⟨(type_clipboard_text_never_raises (noEmitErr (Except.error PyExn.failSafe))).1,
   (type_clipboard_text_never_raises (noEmitErr (Except.error PyExn.failSafe))).2
     PyExn.failSafe (by decide)⟩

/-! ## Claim theorems: the single-instance guard, lock release and main -/

/-- C4: `ensure_single_instance` is fail-closed — it returns `False` and
raises nothing whenever the advisory lock is already held by some other
process, whenever the `open` of the lock file errors, or whenever the
platform locking primitive (`msvcrt` / `fcntl`) is unavailable on the
host. -/
theorem ensure_single_instance_fail_closed (pid : Nat) (env : LockEnv) (os : Option Nat)
    (g : ProcState)
    (h : env.importOk = false ∨ env.openOk = false ∨ ∃ q, os = some q) :
    (ensure_single_instance pid env os g).returns = false ∧
    (ensure_single_instance pid env os g).raised = none := by
  obtain ⟨plat, imp, opn⟩ := env
  cases plat <;> cases imp <;> cases opn <;>
    rcases h with h | h | ⟨q, rfl⟩ <;>
      simp_all [ensure_single_instance, lockBranch, closeHandle]

theorem ensure_single_instance_fail_closed_witness :
    (ensure_single_instance 2 ⟨Platform.posix, true, true⟩ (some 1) procInit).returns = false ∧
    (ensure_single_instance 2 ⟨Platform.posix, true, true⟩ (some 1) procInit).raised = none :=
  ensure_single_instance_fail_closed 2 ⟨Platform.posix, true, true⟩ (some 1) procInit
    (Or.inr (Or.inr ⟨1, rfl⟩))

/-- C1, code bug: two startup attempts run one after the other on the same
machine — each with the locking primitive available, the open succeeding,
and the sequence starting with no lock held — and BOTH observe
`ensure_single_instance() == True`, because `return True` exits the
with-block, which closes the lock file and thereby makes the OS release
the advisory lock the instant the call returns (third conjunct).  The
claimed mutual exclusion ("exactly one of N ≥ 2 attempts observes True")
fails on this serialization of concurrent startups. -/
theorem ensure_single_instance_double_acquire :
    (ensure_single_instance 1 ⟨Platform.posix, true, true⟩ none procInit).returns = true ∧
    (ensure_single_instance 2 ⟨Platform.posix, true, true⟩
        (ensure_single_instance 1 ⟨Platform.posix, true, true⟩ none procInit).os
        procInit).returns = true ∧
    (ensure_single_instance 1 ⟨Platform.posix, true, true⟩ none procInit).os = none := by
  decide

/-- C9: whenever `ensure_single_instance` returns with the global
`LOCK_FILE_HANDLE` set, the stored file object has already been closed —
both platform branches return from inside a with-block whose exit closes
the opened lock file, so no open lock-file handle survives the call. -/
theorem ensure_single_instance_closes_handle (pid : Nat) (env : LockEnv) (os : Option Nat)
    (h : Handle)
    (hh : ((ensure_single_instance pid env os procInit).proc).lockFileHandle = some h) :
    h.isOpen = false := by
  obtain ⟨plat, imp, opn⟩ := env
  cases plat <;> cases imp <;> cases opn <;> cases os <;>
    simp_all [ensure_single_instance, lockBranch, closeHandle, procInit] <;>
      (try exact hh ▸ rfl)

theorem ensure_single_instance_closes_handle_witness :
    (⟨false, false⟩ : Handle).isOpen = false :=
  ensure_single_instance_closes_handle 1 ⟨Platform.posix, true, true⟩ none
    ⟨false, false⟩ (by decide)

/-- C3, code bug: at teardown after a successful acquisition the global
handle is an already-closed file object (the with-block in
`ensure_single_instance` closed it), so the unlock call's `fileno()`
lookup raises `ValueError`, which no `except (IOError, OSError)` clause
of `release_lock` catches: the exception propagates out of
`release_lock` instead of being swallowed. -/
theorem release_lock_raises_on_closed_handle :
    (release_lock ⟨Platform.posix, true, false, false, false⟩
        (ensure_single_instance 1 ⟨Platform.posix, true, true⟩ none procInit).os
        (ensure_single_instance 1 ⟨Platform.posix, true, true⟩ none procInit).proc).raised
      = some PyExn.valueError := by
  decide

/-- C8: whenever `ensure_single_instance` returns False at startup, the
`__main__` block prints an informational message and exits with status 0
immediately — the listener thread is never started and the tray is never
run. -/
theorem second_instance_exits_zero (pid : Nat) (env : LockEnv) (os : Option Nat)
    (h : (ensure_single_instance pid env os procInit).returns = false) :
    copycatMain pid env os =
      [MainAction.printMsg "CopyCat is already running! Exiting this instance.",
       MainAction.exitWith 0] ∧
    MainAction.startListenerThread ∉ copycatMain pid env os ∧
    MainAction.runTray ∉ copycatMain pid env os := by
  refine ⟨?_, ?_, ?_⟩ <;> simp [copycatMain, h]

theorem second_instance_exits_zero_witness :
    copycatMain 2 ⟨Platform.posix, false, true⟩ none =
      [MainAction.printMsg "CopyCat is already running! Exiting this instance.",
       MainAction.exitWith 0] ∧
    MainAction.startListenerThread ∉ copycatMain 2 ⟨Platform.posix, false, true⟩ none ∧
    MainAction.runTray ∉ copycatMain 2 ⟨Platform.posix, false, true⟩ none :=
  second_instance_exits_zero 2 ⟨Platform.posix, false, true⟩ none (by decide)

/-! ## Claim theorems: hotkey chord dispatch -/

theorem hotKeyStep_subset (chord s : Finset Nat) (hs : s ⊆ chord) (e : KEvent) :
    (hotKeyStep chord s e).1 ⊆ chord := by
  cases e with
  | press k =>
    by_cases hk : k ∈ chord ∧ k ∉ s
    · simp only [hotKeyStep, if_pos hk]
      exact Finset.insert_subset_iff.mpr ⟨hk.1, hs⟩
    · simp only [hotKeyStep, if_neg hk]
      exact hs
  | release k =>
    simp only [hotKeyStep]
    exact (Finset.erase_subset k s).trans hs

theorem hotKeyStep_fired_iff (chord s : Finset Nat) (hs : s ⊆ chord) (e : KEvent) :
    (hotKeyStep chord s e).2 = true ↔
      ((hotKeyStep chord s e).1 = chord ∧ s ≠ chord) := by
  cases e with
  | press k =>
    by_cases hk : k ∈ chord ∧ k ∉ s
    · simp only [hotKeyStep, if_pos hk, decide_eq_true_eq]
      constructor
      · intro h
        refine ⟨h, fun hsc => ?_⟩
        rw [hsc] at hk
        exact hk.2 hk.1
      · exact And.left
    · simp only [hotKeyStep, if_neg hk]
      constructor
      · intro h
        exact absurd h (by simp)
      · rintro ⟨h1, h2⟩
        exact absurd h1 h2
  | release k =>
    simp only [hotKeyStep]
    constructor
    · intro h
      exact absurd h (by simp)
    · rintro ⟨he, hne⟩
      exact absurd (Finset.Subset.antisymm hs (he ▸ Finset.erase_subset k s)) hne

theorem hotKeyTrace_fired_iff (chord : Finset Nat) :
    ∀ (evs : List KEvent) (s : Finset Nat), s ⊆ chord →
      ∀ t ∈ hotKeyTrace chord s evs,
        (t.2.2 = true ↔ (t.2.1 = chord ∧ t.1 ≠ chord)) := by
  intro evs
  induction evs with
  | nil =>
    intro s _ t ht
    simp [hotKeyTrace] at ht
  | cons e es ih =>
    intro s hs t ht
    rw [hotKeyTrace] at ht
    rcases List.mem_cons.mp ht with rfl | ht2
    · exact hotKeyStep_fired_iff chord s hs e
    · exact ih (hotKeyStep chord s e).1 (hotKeyStep_subset chord s hs e) t ht2

/-- C6: for any chord and any sequence of canonicalized press/release
events fed to the listener from the initial all-released state, the
activation callback fires on an event exactly when that event moves the
pressed-set into "all chord members pressed" from a state that was not
yet complete — i.e. exactly once per maximal interval during which all
chord members are simultaneously pressed, regardless of press order, and
never again while all keys remain held. -/
theorem chord_fires_once_per_completion (chord : Finset Nat) (evs : List KEvent)
    (t : Finset Nat × Finset Nat × Bool) (ht : t ∈ hotKeyTrace chord ∅ evs) :
    t.2.2 = true ↔ (t.2.1 = chord ∧ t.1 ≠ chord) :=
  hotKeyTrace_fired_iff chord evs ∅ (Finset.empty_subset chord) t ht

theorem chord_fires_once_per_completion_witness :
    ((({0} : Finset Nat), (({0, 1} : Finset Nat), true)) :
        Finset Nat × Finset Nat × Bool).2.2 = true ↔
      ((({0} : Finset Nat), (({0, 1} : Finset Nat), true)) :
          Finset Nat × Finset Nat × Bool).2.1 = ({0, 1} : Finset Nat) ∧
      ((({0} : Finset Nat), (({0, 1} : Finset Nat), true)) :
          Finset Nat × Finset Nat × Bool).1 ≠ ({0, 1} : Finset Nat) :=
  chord_fires_once_per_completion {0, 1} [KEvent.press 0, KEvent.press 1]
    ({0}, {0, 1}, true) (by decide)

end CopyCat
